import Mathlib

/-!
# College_Media landing page components

An embedding of the three presentational components of `frontend/src/components`
(`Navbar.jsx`, `Hero.jsx`, `Footer.jsx`). Each component is kept as the function declaration
it is in the source: its formal parameters and the JSX expression it returns. A render call
evaluates that expression in an environment holding the props passed by the host and the
variables in scope of the module:

* character references in JSX text are decoded (`decodeEntities`);
* JSX text is cleaned line by line (`cleanJSXElementLiteralChild`), which drops the
  indentation between tags and joins wrapped lines with one space;
* an expression container `{name}` reads the variable from the scope;
* every JSX element becomes one element node carrying its tag, its props and the
  transformed children (`createElement`).

The queries further down (`descendants`, `getElementsByTagName`, `textContent`, `classList`,
...) read the resulting tree the way a DOM test would.
-/

namespace CollegeMedia

/-! ## Syntax of the JSX the components are written in -/

/-- Props object: prop name and string value. The host passes one to a component, and every
element node carries one. -/
abbrev Props := List (String × String)

/-- Value of a JSX attribute: a string literal as written between the quotes, or an expression
container `{name}` that reads a variable. -/
inductive AttributeValue where
  | literal (raw : String)
  | expression (name : String)

/-- Attributes of an opening tag in source order. -/
abbrev Attrs := List (String × AttributeValue)

/-- JSX child syntax: a run of JSX text exactly as written between two tags, an expression
container `{name}` that reads a variable, or an element with its tag name, attributes and
children. -/
inductive JSX where
  | text (raw : String)
  | expression (name : String)
  | element (name : String) (attributes : Attrs) (children : List JSX)

/-- Function declaration of a component: the names its parameter binds from the props object
and the JSX expression its body returns. -/
structure FunctionDeclaration where
  params : List String
  body : JSX

/-- Node of a display tree: a text node or an element node. -/
inductive Node where
  | text (data : String)
  | element (tag : String) (props : Props) (children : List Node)

/-- What a render call can observe: the props the host passes and the variables in scope of
the module (its state). -/
structure Env where
  props : Props
  state : List (String × String)

/-- Variables as the body of a component sees them. -/
abbrev Scope := String → Option String

/-! ## The three components -/

/-- Declaration `function Navbar()` of `components/Navbar.jsx`: no formal parameter, and a body
that returns one JSX expression, given here with every JSX text run (indentation and line
breaks included) as written. -/
def Navbar : FunctionDeclaration where
  params := []
  body :=
    .element "nav" [] [
      .text "\n      ",
      .element "div" [("className", .literal "container nav-container")] [
        .text "\n        ",
        .element "div" [("className", .literal "logo")] [
          .text "\n          ",
          .element "div" [("className", .literal "logo-icon")] [.text "C"],
          .text "\n          ",
          .element "span" [] [.text "ProjectX"],
          .text "\n        "],
        .text "\n\n        ",
        .element "div" [("className", .literal "nav-links")] [
          .text "\n          ",
          .element "ul" [] [
            .text "\n            ",
            .element "li" [] [
              .element "a" [("href", .literal "#features")] [.text "Features"]],
            .text "\n            ",
            .element "li" [] [
              .element "a" [("href", .literal "#about")] [.text "About"]],
            .text "\n            ",
            .element "li" [] [
              .element "a" [("href", .literal "#team")] [.text "Team"]],
            .text "\n            ",
            .element "li" [] [
              .text "\n              ",
              .element "a" [("href", .literal "#get-started"), ("className", .literal "btn btn-primary")] [
                .text "\n                Get Started\n              "],
              .text "\n            "],
            .text "\n          "],
          .text "\n        "],
        .text "\n      "],
      .text "\n    "]

/-- Declaration `function Hero()` of `components/Hero.jsx`: no formal parameter, and the JSX
expression it returns. The badge starts with U+1F680 and the first action label ends with
U+2192, as in the file. -/
def Hero : FunctionDeclaration where
  params := []
  body :=
    .element "section" [("className", .literal "hero")] [
      .text "\n      ",
      .element "div" [("className", .literal "container")] [
        .text "\n        ",
        .element "div" [("className", .literal "badge")] [.text "🚀 Now Live"],
        .text "\n\n        ",
        .element "h1" [] [
          .text "\n          The Future of ",
          .element "span" [("className", .literal "highlight")] [.text "Digital Innovation"],
          .text "\n        "],
        .text "\n\n        ",
        .element "p" [] [
          .text "\n          ProjectX is a revolutionary platform that transforms how you build,\n          deploy, and scale your digital products. Join thousands of developers\n          and businesses already creating the future.\n        "],
        .text "\n\n        ",
        .element "div" [("className", .literal "hero-buttons")] [
          .text "\n          ",
          .element "a" [("href", .literal "#get-started"), ("className", .literal "btn btn-primary btn-lg")] [
            .text "\n            Start Building Free →\n          "],
          .text "\n          ",
          .element "a" [("href", .literal "#demo"), ("className", .literal "btn btn-secondary btn-lg")] [
            .text "\n            View Demo\n          "],
          .text "\n        "],
        .text "\n      "],
      .text "\n    "]

/-- Declaration `function Footer()` of `components/Footer.jsx`: no formal parameter, and the JSX
expression it returns. The copyright line keeps its character reference `&copy;` undecoded,
as in the file. -/
def Footer : FunctionDeclaration where
  params := []
  body :=
    .element "footer" [] [
      .text "\n      ",
      .element "div" [("className", .literal "container")] [
        .text "\n        ",
        .element "div" [("className", .literal "footer-content")] [
          .text "\n          ",
          .element "div" [("className", .literal "footer-logo")] [
            .text "\n            ",
            .element "div" [("className", .literal "footer-logo-icon")] [.text "C"],
            .text "\n            ",
            .element "span" [] [.text "ProjectX"],
            .text "\n          "],
          .text "\n\n          ",
          .element "div" [("className", .literal "social-icons")] [
            .text "\n            ",
            .element "a" [("href", .literal "#"), ("className", .literal "social-icon")] [
              .text "GH"],
            .text "\n            ",
            .element "a" [("href", .literal "#"), ("className", .literal "social-icon")] [
              .text "TW"],
            .text "\n            ",
            .element "a" [("href", .literal "#"), ("className", .literal "social-icon")] [
              .text "LI"],
            .text "\n            ",
            .element "a" [("href", .literal "#"), ("className", .literal "social-icon")] [
              .text "MA"],
            .text "\n          "],
          .text "\n        "],
        .text "\n\n        ",
        .element "div" [("className", .literal "footer-bottom")] [
          .text "&copy; 2026 ProjectX. All rights reserved."],
        .text "\n      "],
      .text "\n    "]

/-! ## JSX text semantics -/

/-- Named character references of JSX text with their code points: the XHTML table (the 252
names of HTML 4 and `apos`), ordered by code point. -/
def entities : List (String × Nat) :=
  [("quot", 0x22), ("amp", 0x26), ("apos", 0x27), ("lt", 0x3C), ("gt", 0x3E), ("nbsp", 0xA0),
   ("iexcl", 0xA1), ("cent", 0xA2), ("pound", 0xA3), ("curren", 0xA4), ("yen", 0xA5),
   ("brvbar", 0xA6), ("sect", 0xA7), ("uml", 0xA8), ("copy", 0xA9), ("ordf", 0xAA),
   ("laquo", 0xAB), ("not", 0xAC), ("shy", 0xAD), ("reg", 0xAE), ("macr", 0xAF), ("deg", 0xB0),
   ("plusmn", 0xB1), ("sup2", 0xB2), ("sup3", 0xB3), ("acute", 0xB4), ("micro", 0xB5),
   ("para", 0xB6), ("middot", 0xB7), ("cedil", 0xB8), ("sup1", 0xB9), ("ordm", 0xBA),
   ("raquo", 0xBB), ("frac14", 0xBC), ("frac12", 0xBD), ("frac34", 0xBE), ("iquest", 0xBF),
   ("Agrave", 0xC0), ("Aacute", 0xC1), ("Acirc", 0xC2), ("Atilde", 0xC3), ("Auml", 0xC4),
   ("Aring", 0xC5), ("AElig", 0xC6), ("Ccedil", 0xC7), ("Egrave", 0xC8), ("Eacute", 0xC9),
   ("Ecirc", 0xCA), ("Euml", 0xCB), ("Igrave", 0xCC), ("Iacute", 0xCD), ("Icirc", 0xCE),
   ("Iuml", 0xCF), ("ETH", 0xD0), ("Ntilde", 0xD1), ("Ograve", 0xD2), ("Oacute", 0xD3),
   ("Ocirc", 0xD4), ("Otilde", 0xD5), ("Ouml", 0xD6), ("times", 0xD7), ("Oslash", 0xD8),
   ("Ugrave", 0xD9), ("Uacute", 0xDA), ("Ucirc", 0xDB), ("Uuml", 0xDC), ("Yacute", 0xDD),
   ("THORN", 0xDE), ("szlig", 0xDF), ("agrave", 0xE0), ("aacute", 0xE1), ("acirc", 0xE2),
   ("atilde", 0xE3), ("auml", 0xE4), ("aring", 0xE5), ("aelig", 0xE6), ("ccedil", 0xE7),
   ("egrave", 0xE8), ("eacute", 0xE9), ("ecirc", 0xEA), ("euml", 0xEB), ("igrave", 0xEC),
   ("iacute", 0xED), ("icirc", 0xEE), ("iuml", 0xEF), ("eth", 0xF0), ("ntilde", 0xF1),
   ("ograve", 0xF2), ("oacute", 0xF3), ("ocirc", 0xF4), ("otilde", 0xF5), ("ouml", 0xF6),
   ("divide", 0xF7), ("oslash", 0xF8), ("ugrave", 0xF9), ("uacute", 0xFA), ("ucirc", 0xFB),
   ("uuml", 0xFC), ("yacute", 0xFD), ("thorn", 0xFE), ("yuml", 0xFF), ("OElig", 0x152),
   ("oelig", 0x153), ("Scaron", 0x160), ("scaron", 0x161), ("Yuml", 0x178), ("fnof", 0x192),
   ("circ", 0x2C6), ("tilde", 0x2DC), ("Alpha", 0x391), ("Beta", 0x392), ("Gamma", 0x393),
   ("Delta", 0x394), ("Epsilon", 0x395), ("Zeta", 0x396), ("Eta", 0x397), ("Theta", 0x398),
   ("Iota", 0x399), ("Kappa", 0x39A), ("Lambda", 0x39B), ("Mu", 0x39C), ("Nu", 0x39D),
   ("Xi", 0x39E), ("Omicron", 0x39F), ("Pi", 0x3A0), ("Rho", 0x3A1), ("Sigma", 0x3A3),
   ("Tau", 0x3A4), ("Upsilon", 0x3A5), ("Phi", 0x3A6), ("Chi", 0x3A7), ("Psi", 0x3A8),
   ("Omega", 0x3A9), ("alpha", 0x3B1), ("beta", 0x3B2), ("gamma", 0x3B3), ("delta", 0x3B4),
   ("epsilon", 0x3B5), ("zeta", 0x3B6), ("eta", 0x3B7), ("theta", 0x3B8), ("iota", 0x3B9),
   ("kappa", 0x3BA), ("lambda", 0x3BB), ("mu", 0x3BC), ("nu", 0x3BD), ("xi", 0x3BE),
   ("omicron", 0x3BF), ("pi", 0x3C0), ("rho", 0x3C1), ("sigmaf", 0x3C2), ("sigma", 0x3C3),
   ("tau", 0x3C4), ("upsilon", 0x3C5), ("phi", 0x3C6), ("chi", 0x3C7), ("psi", 0x3C8),
   ("omega", 0x3C9), ("thetasym", 0x3D1), ("upsih", 0x3D2), ("piv", 0x3D6), ("ensp", 0x2002),
   ("emsp", 0x2003), ("thinsp", 0x2009), ("zwnj", 0x200C), ("zwj", 0x200D), ("lrm", 0x200E),
   ("rlm", 0x200F), ("ndash", 0x2013), ("mdash", 0x2014), ("lsquo", 0x2018), ("rsquo", 0x2019),
   ("sbquo", 0x201A), ("ldquo", 0x201C), ("rdquo", 0x201D), ("bdquo", 0x201E), ("dagger", 0x2020),
   ("Dagger", 0x2021), ("bull", 0x2022), ("hellip", 0x2026), ("permil", 0x2030),
   ("prime", 0x2032), ("Prime", 0x2033), ("lsaquo", 0x2039), ("rsaquo", 0x203A),
   ("oline", 0x203E), ("frasl", 0x2044), ("euro", 0x20AC), ("image", 0x2111), ("weierp", 0x2118),
   ("real", 0x211C), ("trade", 0x2122), ("alefsym", 0x2135), ("larr", 0x2190), ("uarr", 0x2191),
   ("rarr", 0x2192), ("darr", 0x2193), ("harr", 0x2194), ("crarr", 0x21B5), ("lArr", 0x21D0),
   ("uArr", 0x21D1), ("rArr", 0x21D2), ("dArr", 0x21D3), ("hArr", 0x21D4), ("forall", 0x2200),
   ("part", 0x2202), ("exist", 0x2203), ("empty", 0x2205), ("nabla", 0x2207), ("isin", 0x2208),
   ("notin", 0x2209), ("ni", 0x220B), ("prod", 0x220F), ("sum", 0x2211), ("minus", 0x2212),
   ("lowast", 0x2217), ("radic", 0x221A), ("prop", 0x221D), ("infin", 0x221E), ("ang", 0x2220),
   ("and", 0x2227), ("or", 0x2228), ("cap", 0x2229), ("cup", 0x222A), ("int", 0x222B),
   ("there4", 0x2234), ("sim", 0x223C), ("cong", 0x2245), ("asymp", 0x2248), ("ne", 0x2260),
   ("equiv", 0x2261), ("le", 0x2264), ("ge", 0x2265), ("sub", 0x2282), ("sup", 0x2283),
   ("nsub", 0x2284), ("sube", 0x2286), ("supe", 0x2287), ("oplus", 0x2295), ("otimes", 0x2297),
   ("perp", 0x22A5), ("sdot", 0x22C5), ("lceil", 0x2308), ("rceil", 0x2309), ("lfloor", 0x230A),
   ("rfloor", 0x230B), ("lang", 0x2329), ("rang", 0x232A), ("loz", 0x25CA), ("spades", 0x2660),
   ("clubs", 0x2663), ("hearts", 0x2665), ("diams", 0x2666)]

/-- Scan a reference name: at most `budget` characters are examined, and the scan succeeds when
one of them is the semicolon. Returns the name and the number of characters consumed, the
semicolon included. -/
def scanName : Nat → List Char → Option (List Char × Nat)
  | 0, _ => none
  | _ + 1, [] => none
  | budget + 1, c :: cs =>
    if c = ';' then some ([], 1)
    else match scanName budget cs with
      | some (name, n) => some (c :: name, n + 1)
      | none => none

/-- Value of a digit in the given radix, if the character is one. -/
def digitValue (radix : Nat) (c : Char) : Option Nat :=
  let v :=
    if '0' ≤ c ∧ c ≤ '9' then c.toNat - '0'.toNat
    else if 'a' ≤ c ∧ c ≤ 'f' then c.toNat - 'a'.toNat + 10
    else if 'A' ≤ c ∧ c ≤ 'F' then c.toNat - 'A'.toNat + 10
    else radix
  if v < radix then some v else none

/-- Read the digits of a numeric reference: returns the number read so far, how many digits
were consumed, and the rest of the input. -/
def readInt (radix : Nat) : Nat → Nat → List Char → Nat × Nat × List Char
  | acc, n, [] => (acc, n, [])
  | acc, n, c :: cs =>
    match digitValue radix c with
    | some v => readInt radix (acc * radix + v) (n + 1) cs
    | none => (acc, n, c :: cs)

/-- Decode the character reference whose text follows an ampersand. Returns the character and
the number of input characters it took, or `none` when the text is no reference (the ampersand
then stands for itself). A numeric reference outside the Unicode scalar values is treated as
no reference. -/
def jsxReadEntity : List Char → Option (Char × Nat)
  | '#' :: 'x' :: cs =>
    match readInt 16 0 0 cs with
    | (v, n + 1, ';' :: _) => if v.isValidChar then some (Char.ofNat v, n + 4) else none
    | _ => none
  | '#' :: cs =>
    match readInt 10 0 0 cs with
    | (v, n + 1, ';' :: _) => if v.isValidChar then some (Char.ofNat v, n + 3) else none
    | _ => none
  | cs =>
    match scanName 10 cs with
    | some (name, n) =>
      match entities.lookup (String.mk name) with
      | some v => some (Char.ofNat v, n)
      | none => none
    | none => none

/-- Decode every character reference of a JSX text run. The first argument counts the input
characters still to be skipped because they belonged to a reference already decoded. -/
def decodeFrom : Nat → List Char → List Char
  | _, [] => []
  | skip + 1, _ :: cs => decodeFrom skip cs
  | 0, c :: cs =>
    if c = '&' then
      match jsxReadEntity cs with
      | some (ch, n) => ch :: decodeFrom n cs
      | none => '&' :: decodeFrom 0 cs
    else c :: decodeFrom 0 cs

/-- Value of a JSX text run: its source text with the character references decoded. -/
def decodeEntities (raw : List Char) : List Char :=
  decodeFrom 0 raw

/-- Split at line terminators (`\r\n`, `\n` or `\r`); the result is never empty. -/
def splitLines : List Char → List (List Char)
  | [] => [[]]
  | c :: cs =>
    if c = '\n' ∨ (c = '\r' ∧ cs.head? ≠ some '\n') then [] :: splitLines cs
    else if c = '\r' then splitLines cs
    else match splitLines cs with
      | l :: ls => (c :: l) :: ls
      | [] => [[c]]

/-- Remove the blanks at the start of a line. -/
def trimStart (line : List Char) : List Char :=
  line.dropWhile (fun c => c = ' ')

/-- Remove the blanks at the end of a line. -/
def trimEnd (line : List Char) : List Char :=
  (trimStart line.reverse).reverse

/-- Index of the last line holding a character other than blank and tab, 0 when there is none. -/
def lastNonEmptyLine (lines : List (List Char)) : Nat :=
  lines.enum.foldl
    (fun acc il => if il.2.any (fun c => c ≠ ' ' ∧ c ≠ '\t') then il.1 else acc) 0

/-- One line of a JSX text run after cleaning: tabs become blanks, every line but the first
loses its leading blanks, every line but the last its trailing blanks, and a line that stays
non-empty gets one blank appended unless it is the last non-empty line. -/
def cleanLine (count last i : Nat) (line : List Char) : List Char :=
  let l₀ := line.map (fun c => if c = '\t' then ' ' else c)
  let l₁ := if i ≠ 0 then trimStart l₀ else l₀
  let l₂ := if i ≠ count - 1 then trimEnd l₁ else l₁
  if l₂ = [] then [] else if i ≠ last then l₂ ++ [' '] else l₂

/-- Cleaned value of a JSX text child; an empty result means the child is dropped. -/
def cleanJSXElementLiteralChild (value : List Char) : List Char :=
  let lines := splitLines value
  let last := lastNonEmptyLine lines
  (lines.enum.map (fun il => cleanLine lines.length last il.1 il.2)).flatten

/-- String a JSX text run contributes to its parent: decoded, then cleaned. -/
def jsxText (raw : String) : String :=
  String.mk (cleanJSXElementLiteralChild (decodeEntities raw.data))

/-! ## Evaluation of a component -/

/-- Scope of a call: a name bound by the parameter is read from the props, any other name from
the module state. -/
def FunctionDeclaration.scope (f : FunctionDeclaration) (env : Env) : Scope :=
  fun name => if name ∈ f.params then env.props.lookup name else env.state.lookup name

/-- Prop an attribute contributes: a string literal gives its decoded value (attribute values
are not cleaned), an expression container the value of its variable, and nothing when the
variable is undefined. -/
def jsxAttribute (scope : Scope) (attr : String × AttributeValue) :
    Option (String × String) :=
  match attr.2 with
  | .literal raw => some (attr.1, String.mk (decodeEntities raw.data))
  | .expression name => (scope name).map (fun value => (attr.1, value))

/-- Props of an element, in the order of its attributes. -/
def jsxAttributes (scope : Scope) (attributes : Attrs) : Props :=
  attributes.filterMap (jsxAttribute scope)

/-- A JSX child contributes no node when it is a text run whose cleaned value is empty, or an
expression container whose variable is undefined. -/
def isDropped (scope : Scope) : JSX → Bool
  | .text raw => jsxText raw = ""
  | .expression name => (scope name).isNone
  | .element _ _ _ => false

mutual
/-- Display tree of a JSX expression: an element becomes an element node over its props and its
transformed children, a text run a text node with its cleaned value, an expression container
a text node with the value of its variable. -/
def createElement (scope : Scope) : JSX → Node
  | .text raw => .text (jsxText raw)
  | .expression name => .text ((scope name).getD "")
  | .element name attributes children =>
    .element name (jsxAttributes scope attributes) (buildChildren scope children)
/-- Children of an element node, in source order, the dropped children left out. -/
def buildChildren (scope : Scope) : List JSX → List Node
  | [] => []
  | child :: rest =>
    if isDropped scope child then buildChildren scope rest
    else createElement scope child :: buildChildren scope rest
end

/-- One render call: the body of the component is evaluated in the scope the environment gives
it. -/
def render (component : FunctionDeclaration) (env : Env) : Node :=
  createElement (component.scope env) component.body

/-- An attribute reads a variable when its value is an expression container. -/
def AttributeValue.readsScope : AttributeValue → Bool
  | .literal _ => false
  | .expression _ => true

mutual
/-- A JSX expression reads a variable when an expression container occurs in it, as a child or
as an attribute value. -/
def readsScope : JSX → Bool
  | .text _ => false
  | .expression _ => true
  | .element _ attributes children =>
    attributes.any (fun attr => attr.2.readsScope) || readsScopeAny children
/-- Some JSX expression of the list reads a variable. -/
def readsScopeAny : List JSX → Bool
  | [] => false
  | child :: rest => readsScope child || readsScopeAny rest
end

/-! ## Reading a display tree -/

/-- Tag of an element node; a text node has none. -/
def Node.tagName : Node → Option String
  | .text _ => none
  | .element tag _ _ => some tag

/-- Children of a node in order; a text node has none. -/
def Node.childNodes : Node → List Node
  | .text _ => []
  | .element _ _ children => children

/-- Value of a named prop of an element node, if it is set (the class names are kept under
`className`, the link target under `href`). -/
def Node.getAttribute (name : String) : Node → Option String
  | .text _ => none
  | .element _ props _ => props.lookup name

mutual
/-- Nodes of a tree in document order (the node itself first, then its children's trees). -/
def descendants : Node → List Node
  | .text data => [.text data]
  | .element tag props children => .element tag props children :: descendantsAll children
/-- Nodes of a forest in document order. -/
def descendantsAll : List Node → List Node
  | [] => []
  | n :: rest => descendants n ++ descendantsAll rest
end

mutual
/-- Text content of a node: the data of the text nodes below it, concatenated in order. -/
def textChars : Node → List Char
  | .text data => data.data
  | .element _ _ children => textCharsAll children
/-- Concatenated text content of a forest. -/
def textCharsAll : List Node → List Char
  | [] => []
  | n :: rest => textChars n ++ textCharsAll rest
end

/-- Text content of a node as a string. -/
def textContent (n : Node) : String :=
  String.mk (textChars n)

/-- Data of the text nodes of a tree in document order. -/
def textNodes (root : Node) : List String :=
  (descendants root).filterMap
    (fun n => match n with
      | .text data => some data
      | .element _ _ _ => none)

/-- Split at white space into the non-empty tokens; the second argument is the token being
read, last character first. -/
def tokens : List Char → List Char → List (List Char)
  | [], [] => []
  | [], cur => [cur.reverse]
  | c :: cs, cur =>
    if c = ' ' ∨ c = '\t' ∨ c = '\n' ∨ c = '\r' ∨ c = Char.ofNat 12 then
      (if cur = [] then tokens cs [] else cur.reverse :: tokens cs [])
    else tokens cs (c :: cur)

/-- Class names of an element: the tokens of its `className` attribute. -/
def classList (n : Node) : List String :=
  match n.getAttribute "className" with
  | some value => (tokens value.data []).map String.mk
  | none => []

/-- Elements of a tree with the given tag, in document order. -/
def getElementsByTagName (tag : String) (root : Node) : List Node :=
  (descendants root).filter (fun n => n.tagName = some tag)

/-- Elements of a tree carrying the given class name, in document order. -/
def getElementsByClassName (cls : String) (root : Node) : List Node :=
  (descendants root).filter (fun n => cls ∈ classList n)

/-- Target of a link is an in-page fragment: the `href` is set and starts with `#`. -/
def isFragmentTarget : Option String → Bool
  | some target => target.data.head? = some '#'
  | none => false

/-- A text is a copyright notice when it carries the copyright sign U+00A9. -/
def isCopyrightNotice (t : String) : Bool :=
  Char.ofNat 0xA9 ∈ t.data

mutual
/-- The same tree with every `className` attribute removed. -/
def eraseClass : Node → Node
  | .text data => .text data
  | .element tag props children =>
    .element tag (props.filter (fun kv => kv.1 ≠ "className")) (eraseClassAll children)
/-- The same forest with every `className` attribute removed. -/
def eraseClassAll : List Node → List Node
  | [] => []
  | n :: rest => eraseClass n :: eraseClassAll rest
end

/-! ## A body without expression containers renders the same in every scope -/

/-- Attributes that read no variable give the same props in every scope. -/
theorem jsxAttributes_of_static (s₁ s₂ : Scope) (attributes : Attrs)
    (h : attributes.any (fun attr => attr.2.readsScope) = false) :
    jsxAttributes s₁ attributes = jsxAttributes s₂ attributes := by
  induction attributes with
  | nil => rfl
  | cons attr rest ih =>
    simp only [List.any_cons, Bool.or_eq_false_iff] at h
    obtain ⟨name, value⟩ := attr
    cases value with
    | literal raw =>
      simp only [jsxAttributes, List.filterMap_cons, jsxAttribute] at ih ⊢
      rw [ih h.2]
    | expression x => simp [AttributeValue.readsScope] at h

/-- A child that reads no variable is dropped in one scope exactly when it is in another. -/
theorem isDropped_of_static (s₁ s₂ : Scope) (child : JSX) (h : readsScope child = false) :
    isDropped s₁ child = isDropped s₂ child := by
  cases child with
  | text raw => rfl
  | expression x => simp [readsScope] at h
  | element name attributes children => rfl

mutual
/-- A JSX expression that reads no variable has the same display tree in every scope. -/
theorem createElement_of_static (s₁ s₂ : Scope) :
    ∀ j : JSX, readsScope j = false → createElement s₁ j = createElement s₂ j
  | .text raw, _ => by simp only [createElement]
  | .expression x, h => by simp [readsScope] at h
  | .element name attributes children, h => by
    simp only [readsScope, Bool.or_eq_false_iff] at h
    simp only [createElement]
    rw [jsxAttributes_of_static s₁ s₂ attributes h.1,
      buildChildren_of_static s₁ s₂ children h.2]
/-- JSX children that read no variable give the same nodes in every scope. -/
theorem buildChildren_of_static (s₁ s₂ : Scope) :
    ∀ js : List JSX, readsScopeAny js = false → buildChildren s₁ js = buildChildren s₂ js
  | [], _ => by simp only [buildChildren]
  | child :: rest, h => by
    simp only [readsScopeAny, Bool.or_eq_false_iff] at h
    simp only [buildChildren]
    rw [isDropped_of_static s₁ s₂ child h.1, createElement_of_static s₁ s₂ child h.1,
      buildChildren_of_static s₁ s₂ rest h.2]
end

/-- A component whose body reads no variable renders the same tree in every environment. -/
theorem render_of_static (component : FunctionDeclaration)
    (h : readsScope component.body = false) (e₁ e₂ : Env) :
    render component e₁ = render component e₂ :=
  createElement_of_static _ _ component.body h


/-! ## Properties of the rendered trees -/

set_option maxRecDepth 8192

/-- C1: the tree returned by `Navbar()` holds exactly four anchors; in document order their
labels are Features, About, Team, Get Started, their targets `#features`, `#about`, `#team`,
`#get-started`; the fourth carries the classes `btn btn-primary` and the first three carry no
class attribute. -/
theorem navbar_anchors (env : Env) :
    (getElementsByTagName "a" (render Navbar env)).map
        (fun a => (textContent a, a.getAttribute "href", a.getAttribute "className")) =
      [("Features", some "#features", none),
       ("About", some "#about", none),
       ("Team", some "#team", none),
       ("Get Started", some "#get-started", some "btn btn-primary")] := by
  rw [render_of_static Navbar rfl env ⟨[], []⟩]
  decide

/-- C2 as stated fails: the tree returned by `Hero()` has no pair of anchors whose first label
is exactly "Start Building Free" (the label in the source goes on with a blank and an arrow). -/
theorem hero_first_label_is_not_bare :
    ¬ ∃ a b, getElementsByTagName "a" (render Hero ⟨[], []⟩) = [a, b] ∧
      textContent a = "Start Building Free" ∧
      "btn-primary" ∈ classList a ∧ "btn-secondary" ∉ classList a ∧
      textContent b = "View Demo" ∧
      "btn-secondary" ∈ classList b ∧ "btn-primary" ∉ classList b := by
  rintro ⟨a, b, h, ha, -⟩
  have hl : (getElementsByTagName "a" (render Hero ⟨[], []⟩)).map textContent =
      ["Start Building Free →", "View Demo"] := by decide
  rw [h] at hl
  simp only [List.map_cons, List.map_nil, List.cons.injEq, and_true] at hl
  rw [ha] at hl
  exact absurd hl.1 (by decide)

/-- C2 (amended): the tree returned by `Hero()` holds exactly two anchors; the first has the
label "Start Building Free →" and the primary style (its class list has `btn-primary` and not
`btn-secondary`), the second has the label "View Demo" and the secondary style (its class list
has `btn-secondary` and not `btn-primary`). -/
theorem hero_anchors (env : Env) :
    ∃ a b, getElementsByTagName "a" (render Hero env) = [a, b] ∧
      textContent a = "Start Building Free →" ∧
      "btn-primary" ∈ classList a ∧ "btn-secondary" ∉ classList a ∧
      textContent b = "View Demo" ∧
      "btn-secondary" ∈ classList b ∧ "btn-primary" ∉ classList b := by
  rw [render_of_static Hero rfl env ⟨[], []⟩]
  exact ⟨_, _, rfl, by decide, by decide, by decide, by decide, by decide, by decide⟩

/-- C4: the text content of the element of class `footer-bottom` in the tree returned by
`Footer()` is exactly "© 2026 ProjectX. All rights reserved." (the reference `&copy;` of the
source decoded to U+00A9), and there is one such element. -/
theorem footer_copyright_text (env : Env) :
    (getElementsByClassName "footer-bottom" (render Footer env)).map textContent =
      ["© 2026 ProjectX. All rights reserved."] := by
  rw [render_of_static Footer rfl env ⟨[], []⟩]
  decide

/-- C6: each of `Navbar`, `Hero` and `Footer` declares no parameter and returns a JSX expression
without expression container, so it reads neither the props nor the state of the environment,
and any two render calls return equal display trees (same tags, props, children order and
text), whatever the two environments are. This is a fact about the three components and not
about the renderer: some component renders differently in two environments. -/
theorem render_deterministic (e₁ e₂ : Env) :
    (Navbar.params = [] ∧ readsScope Navbar.body = false ∧
      render Navbar e₁ = render Navbar e₂) ∧
    (Hero.params = [] ∧ readsScope Hero.body = false ∧
      render Hero e₁ = render Hero e₂) ∧
    (Footer.params = [] ∧ readsScope Footer.body = false ∧
      render Footer e₁ = render Footer e₂) ∧
    ∃ c d₁ d₂, render c d₁ ≠ render c d₂ := by
  refine ⟨⟨rfl, by decide, render_of_static Navbar (by decide) e₁ e₂⟩,
    ⟨rfl, by decide, render_of_static Hero (by decide) e₁ e₂⟩,
    ⟨rfl, by decide, render_of_static Footer (by decide) e₁ e₂⟩,
    ⟨[], .element "span" [] [.expression "count"]⟩, ⟨[], [("count", "1")]⟩,
    ⟨[], [("count", "2")]⟩, ?_⟩
  intro h
  exact absurd (congrArg textContent h) (by decide)

/-- C3: the tree returned by `Footer()` holds exactly four anchors, each with the class
`social-icon`, labelled GH, TW, LI, MA in document order; exactly one text node of the tree is
a copyright notice, and it contains both "2026" and "ProjectX". -/
theorem footer_social_links_and_notice (env : Env) :
    (getElementsByTagName "a" (render Footer env)).map
        (fun a => (textContent a, a.getAttribute "className")) =
      [("GH", some "social-icon"), ("TW", some "social-icon"),
       ("LI", some "social-icon"), ("MA", some "social-icon")] ∧
    ∃ s, (textNodes (render Footer env)).filter isCopyrightNotice = [s] ∧
      "2026".data <:+: s.data ∧ "ProjectX".data <:+: s.data := by
  rw [render_of_static Footer rfl env ⟨[], []⟩]
  exact ⟨by decide, _, rfl, by decide, by decide⟩

/-- C5: in the tree returned by `Hero()` the only element child of the `h1` headline is one span
of class `highlight` whose text is exactly "Digital Innovation", and the two action links have
the targets `#get-started` and `#demo`, in that order. -/
theorem hero_highlight_and_targets (env : Env) :
    (getElementsByTagName "h1" (render Hero env)).map
        (fun h => h.childNodes.filterMap
          (fun c => c.tagName.map (fun t => (t, classList c, textContent c)))) =
      [[("span", ["highlight"], "Digital Innovation")]] ∧
    (getElementsByTagName "a" (render Hero env)).map (fun a => a.getAttribute "href") =
      [some "#get-started", some "#demo"] := by
  rw [render_of_static Hero rfl env ⟨[], []⟩]
  decide

/-- C7: the root of the tree returned by `Navbar()` is the one `nav` element; its container
holds the logo block (class `logo`, with the brand text "ProjectX") and after it the link list
(class `nav-links`), also in document order; the link list holds one `ul` whose items are four
`li`, each with one anchor: Features, About, Team, Get Started. -/
theorem navbar_landmark_layout (env : Env) :
    (render Navbar env).tagName = some "nav" ∧
    ((getElementsByTagName "nav" (render Navbar env)).length = 1 ∧
    ((render Navbar env).childNodes.map (fun c => c.childNodes.map classList) =
      [[["logo"], ["nav-links"]]] ∧
    (((descendants (render Navbar env)).map classList).filter (fun l => l ≠ []) =
      [["container", "nav-container"], ["logo"], ["logo-icon"], ["nav-links"],
       ["btn", "btn-primary"]] ∧
    ((getElementsByClassName "logo" (render Navbar env)).map
        (fun n => n.childNodes.map textContent) = [["C", "ProjectX"]] ∧
    ((getElementsByClassName "nav-links" (render Navbar env)).map
        (fun n => n.childNodes.map Node.tagName) = [[some "ul"]] ∧
    (getElementsByTagName "ul" (render Navbar env)).map
        (fun ul => ul.childNodes.map
          (fun li => (li.tagName, li.childNodes.map (fun a => (a.tagName, textContent a))))) =
      [[(some "li", [(some "a", "Features")]), (some "li", [(some "a", "About")]),
        (some "li", [(some "a", "Team")]), (some "li", [(some "a", "Get Started")])]]))))) := by
  rw [render_of_static Navbar rfl env ⟨[], []⟩]
  decide

/-- C8: the root of the tree returned by `Hero()` is a `section` whose one child, the container,
has exactly four children in this order: the badge (class `badge`), the `h1` headline, the
paragraph `p` and the button group; the headline is the text "The Future of " followed by one
highlighted span; the button group holds the two action links, whose class lists differ. -/
theorem hero_section_layout (env : Env) :
    (render Hero env).tagName = some "section" ∧
    (render Hero env).childNodes.map
        (fun c => (classList c, c.childNodes.map (fun n => (n.tagName, classList n)))) =
      [(["container"], [(some "div", ["badge"]), (some "h1", []), (some "p", []),
        (some "div", ["hero-buttons"])])] ∧
    (getElementsByTagName "h1" (render Hero env)).map Node.childNodes =
      [[.text "The Future of ",
        .element "span" [("className", "highlight")] [.text "Digital Innovation"]]] ∧
    ∃ a b, (getElementsByClassName "hero-buttons" (render Hero env)).map Node.childNodes =
        [[a, b]] ∧
      getElementsByTagName "a" (render Hero env) = [a, b] ∧
      classList a ≠ classList b := by
  rw [render_of_static Hero rfl env ⟨[], []⟩]
  exact ⟨rfl, by decide, rfl, _, _, rfl, rfl, by decide⟩

/-- C9: the ten anchors of the three trees all have an `href` that starts with `#`; the
call-to-action link of `Navbar()` and the primary action link of `Hero()` both point to
`#get-started`; the four social links of `Footer()` all point to the bare `#`. -/
theorem anchors_stay_in_page (env : Env) :
    (getElementsByTagName "a" (render Navbar env) ++ getElementsByTagName "a" (render Hero env) ++
        getElementsByTagName "a" (render Footer env)).length = 10 ∧
    (getElementsByTagName "a" (render Navbar env) ++ getElementsByTagName "a" (render Hero env) ++
        getElementsByTagName "a" (render Footer env)).all
      (fun a => isFragmentTarget (a.getAttribute "href")) = true ∧
    (getElementsByClassName "btn-primary" (render Navbar env)).map
        (fun a => a.getAttribute "href") = [some "#get-started"] ∧
    (getElementsByClassName "btn-primary" (render Hero env)).map
        (fun a => a.getAttribute "href") = [some "#get-started"] ∧
    (getElementsByTagName "a" (render Footer env)).map (fun a => a.getAttribute "href") =
      [some "#", some "#", some "#", some "#"] := by
  rw [render_of_static Navbar rfl env ⟨[], []⟩, render_of_static Hero rfl env ⟨[], []⟩, render_of_static Footer rfl env ⟨[], []⟩]
  exact ⟨by decide, by decide, by decide, by decide, by decide⟩

/-- C10: the brand block of `Navbar()` (class `logo`) and the brand block of `Footer()` (class
`footer-logo`) each consist of a glyph `div` with the text "C" followed by a `span` with the
text "ProjectX"; with the class attributes removed the two subtrees are equal. -/
theorem brand_blocks_agree (env : Env) :
    getElementsByClassName "logo" (render Navbar env) =
      [.element "div" [("className", "logo")]
        [.element "div" [("className", "logo-icon")] [.text "C"],
         .element "span" [] [.text "ProjectX"]]] ∧
    getElementsByClassName "footer-logo" (render Footer env) =
      [.element "div" [("className", "footer-logo")]
        [.element "div" [("className", "footer-logo-icon")] [.text "C"],
         .element "span" [] [.text "ProjectX"]]] ∧
    (getElementsByClassName "logo" (render Navbar env)).map eraseClass =
      (getElementsByClassName "footer-logo" (render Footer env)).map eraseClass := by
  rw [render_of_static Navbar rfl env ⟨[], []⟩, render_of_static Footer rfl env ⟨[], []⟩]
  exact ⟨rfl, rfl, rfl⟩

end CollegeMedia
